import Mathlib

/-!
Verification development for the T2S_RAG natural-language-to-SQL pipeline.

Each definition below shallowly embeds one function of the Python sources
(src/agents/schema_retriever.py, src/agents/data_operator.py,
src/agents/sql_query_generator.py, src/agents/state.py,
src/tools/vector_search.py, src/tools/db_utils.py, src/tools/human_in_loop.py,
src/utils/llm_client.py).  External collaborators (the chroma vector store, the
sqlite engine, the Gemini/Codestral/stdin endpoints) are passed in as explicit
outcome functions.  Machine floats of the sources are embedded as rationals.
String manipulation is embedded through character-list helpers (prefixed py)
that mirror the Python string methods used by the sources, so that every
definition evaluates by kernel reduction.

Theorems named C1 .. C10 settle the specification claims; auxiliary lemmas
carry the inductive invariants they need.
-/

/-- Characters removed by Python str.strip() with no argument. -/
def isPySpace (c : Char) : Bool :=
  c = ' ' || c = '\t' || c = '\n' || c = '\r' || c = '\x0b' || c = '\x0c'

/-- Python str.strip() on a character list. -/
def stripChars (l : List Char) : List Char :=
  ((l.dropWhile isPySpace).reverse.dropWhile isPySpace).reverse

/-- Python str.strip(). -/
def pyStrip (s : String) : String := String.mk (stripChars s.data)

/-- Does the second list start with the first (pattern) list? -/
def pyStartsWithChars : List Char → List Char → Bool
  | [], _ => true
  | _ :: _, [] => false
  | p :: ps, c :: cs => p = c && pyStartsWithChars ps cs

/-- Python str.startswith. -/
def pyStartsWith (s pat : String) : Bool := pyStartsWithChars pat.data s.data

/-- Python str.endswith. -/
def pyEndsWith (s pat : String) : Bool :=
  pyStartsWithChars pat.data.reverse s.data.reverse

/-- Python str.split(sep) for a one-character separator: splits at every
occurrence, so the empty string yields one empty piece. -/
def splitChar (sep : Char) : List Char → List (List Char)
  | [] => [[]]
  | c :: rest =>
    match splitChar sep rest with
    | [] => [[]]
    | h :: t => if c = sep then [] :: h :: t else (c :: h) :: t

/-- Python str.split(sep) on strings, one-character separator. -/
def pySplit (sep : Char) (s : String) : List String :=
  (splitChar sep s.data).map String.mk

/-- Python sep.join(parts). -/
def pyJoin (sep : String) : List String → String
  | [] => ""
  | [x] => x
  | x :: y :: rest => x ++ sep ++ pyJoin sep (y :: rest)

/-- Python str.lower(). -/
def pyLower (s : String) : String := String.mk (s.data.map Char.toLower)

/-- Python str.upper(). -/
def pyUpper (s : String) : String := String.mk (s.data.map Char.toUpper)

/-- Number of positions at which pat occurs (occurrences may overlap; for the
patterns this file uses it either only feeds a containment test or the pattern,
UNION, cannot overlap itself, so it agrees with Python's str.count). -/
def countOccChars (pat : List Char) : List Char → Nat
  | [] => 0
  | c :: rest =>
    (if pyStartsWithChars pat (c :: rest) then 1 else 0) + countOccChars pat rest

/-- Python substring containment (pat in s). -/
def containsSub (s pat : String) : Bool :=
  !(countOccChars pat.data s.data == 0)

/-- Python int(choice) restricted to the unsigned numerals the sources feed it;
inputs it rejects take the same retry branch a ValueError takes there. -/
def pyToNat (s : String) : Option Nat :=
  let cs := stripChars s.data
  if cs ≠ [] ∧ cs.all (·.isDigit) then
    some (cs.foldl (fun acc c => acc * 10 + (c.toNat - '0'.toNat)) 0)
  else none

/-- Python str.rstrip with the backtick character. -/
def rstripBackticks (s : String) : String :=
  String.mk ((s.data.reverse.dropWhile (· = '\x60')).reverse)

/-- Python s[n:] counted in characters. -/
def dropChars (n : Nat) (s : String) : String := String.mk (s.data.drop n)

/-- Python s[:n] counted in characters. -/
def takeChars (n : Nat) (s : String) : String := String.mk (s.data.take n)

/-- Python len on a string, counted in characters. -/
def strLen (s : String) : Nat := s.data.length

/-! ## Candidate Ranker (src/tools/vector_search.py) -/

/-- Candidate-table dict built by search_relevant_tables_by_content: keys
table_name, confidence_score, reason, schema_preview. -/
structure Candidate where
  table_name : String
  confidence_score : ℚ
  reason : String
  schema_preview : String
deriving Repr, DecidableEq

/-- One row of a chroma collection.query answer, with the metadata default
already applied: table_name is metadata.get with default Unknown, distance the
embedding distance (default 1.0), doc the stored document. -/
structure QueryResult where
  table_name : String
  distance : ℚ
  doc : String
deriving Repr, DecidableEq

/-- confidence = max(0, 1 - distance) (vector_search.py line 115), written as
the equivalent conditional because Python's max picks the larger argument. -/
def toConfidence (distance : ℚ) : ℚ :=
  if 1 - distance ≤ 0 then 0 else 1 - distance

/-- schema_preview = doc[:200] + "..." if len(doc) > 200 else doc. -/
def schemaPreview (doc : String) : String :=
  if 200 < strLen doc then takeChars 200 doc ++ "..." else doc

/-- The dict appended for a table_name not yet in candidate_tables. -/
def newCandidate (query : String) (r : QueryResult) : Candidate :=
  { table_name := r.table_name
    confidence_score := toConfidence r.distance
    reason := "Contains content matching: " ++ query
    schema_preview := schemaPreview r.doc }

/-- Merging one query result into candidate_tables: the source takes the first
entry with the same table_name and raises its confidence (replacing the
reason) when the new confidence is strictly larger, otherwise appends a new
entry at the end (vector_search.py lines 117-130). -/
def addCandidate (query : String) (r : QueryResult) : List Candidate → List Candidate
  | [] => [newCandidate query r]
  | c :: rest =>
    if c.table_name = r.table_name then
      (if c.confidence_score < toConfidence r.distance then
        { c with confidence_score := toConfidence r.distance
                 reason := "Found relevant content for query: " ++ query }
      else c) :: rest
    else c :: addCandidate query r rest

/-- search_queries built in search_relevant_tables_by_content (lines 87-99):
per entity a column query and a field query, a combined-context query when more
than one entity exists, then the full NL text. -/
def search_queries (entities : List String) (nl_text : String) : List String :=
  (entities.flatMap fun e => ["column " ++ e, "field " ++ e])
    ++ (if 1 < entities.length then
          ["table with " ++ pyJoin " and " entities]
        else [])
    ++ [nl_text]

/-- Outcome of one collection.query call: error models the inner exception
that the per-query except swallows before continuing. -/
abbrev QueryOutcome := Except Unit (List QueryResult)

/-- Body of the per-query loop: a failed query is skipped (except: continue),
a successful one folds every returned row into candidate_tables. -/
def mergeQuery (acc : List Candidate) (query : String) (outcome : QueryOutcome) :
    List Candidate :=
  match outcome with
  | .error _ => acc
  | .ok rs => rs.foldl (fun a r => addCandidate query r a) acc

/-- Comparator of sorted(..., key=confidence_score, reverse=True). -/
def candidateLE (a b : Candidate) : Bool :=
  decide (b.confidence_score ≤ a.confidence_score)

/-- The try-covered body of search_relevant_tables_by_content
(vector_search.py lines 76-147): collectionOk models whether chroma
get_collection succeeded (the outer except returns the empty list),
queryOutcome the answer of collection.query per query text.  mkRat 2 10 is
the source's literal 0.2.  The function's pre-try setup phase — the config
open/parse (line 67) and the PersistentClient construction (lines 69-74),
whose failures are NOT caught — is embedded by
search_relevant_tables_entry below. -/
def search_relevant_tables_by_content (collectionOk : Bool)
    (queryOutcome : String → QueryOutcome)
    (entities : List String) (nl_text : String) (top_k : Nat) : List Candidate :=
  if collectionOk then
    let merged := (search_queries entities nl_text).foldl
      (fun acc q => mergeQuery acc q (queryOutcome q)) []
    let sorted := merged.mergeSort candidateLE
    let filtered := sorted.filter fun t => decide (mkRat 2 10 < t.confidence_score)
    filtered.take top_k
  else []

/-- The stream of (query, row) pairs actually folded into candidate_tables:
failed queries contribute nothing. -/
def pairsOf (queryOutcome : String → QueryOutcome) (queries : List String) :
    List (String × QueryResult) :=
  queries.flatMap fun q =>
    match queryOutcome q with
    | .ok rs => rs.map fun r => (q, r)
    | .error _ => []

/-- Replaces every failed query by a successful empty answer. -/
def okifyOutcome (queryOutcome : String → QueryOutcome) : String → QueryOutcome :=
  fun q =>
    match queryOutcome q with
    | .ok rs => .ok rs
    | .error _ => .ok []

/-- Does c carry exactly the maximum confidence over all query rows that
collide on its table_name (achieved by one of them, at least all of them)? -/
def confIsMaxIn (pool : List (String × QueryResult)) (c : Candidate) : Bool :=
  ((pool.filter fun p => p.2.table_name == c.table_name).map
      fun p => toConfidence p.2.distance).any (fun q => q == c.confidence_score)
  && ((pool.filter fun p => p.2.table_name == c.table_name).map
      fun p => toConfidence p.2.distance).all (fun q => decide (q ≤ c.confidence_score))

/-! ## Database and Schema Index (src/tools/db_utils.py, vector_search.py) -/

/-- One column row of PRAGMA table_info: name and declared type. -/
abbrev Column := String × String

/-- The sqlite database as sqlite_master lists it: tables in order, each with
its columns. -/
abbrev Db := List (String × List Column)

/-- One chroma document: its id, its table_name metadata, its text. -/
structure Doc where
  id : String
  table_name : String
  document : String
deriving Repr, DecidableEq

/-- A chroma collection's contents in insertion order. -/
abbrev Store := List Doc

/-- The dicts produced by get_table_schemas. -/
structure TableSchema where
  table_name : String
  schema : String
deriving Repr, DecidableEq

/-- schema_content built in get_table_schemas (db_utils.py lines 25-29). -/
def schemaContent (tbl : String) (cols : List Column) : String :=
  "Table: " ++ tbl ++ "\nColumns:\n"
    ++ String.join (cols.map fun c => "- " ++ c.1 ++ " (" ++ c.2 ++ ")\n")

/-- get_table_schemas (db_utils.py lines 10-36): every table, or only the named
one when a table_name is given (None embeds Python's falsy default). -/
def get_table_schemas (db : Db) (table_name : Option String) : List TableSchema :=
  (db.filter fun t =>
      match table_name with
      | some tn => t.1 = tn
      | none => true).map
    fun t => { table_name := t.1, schema := schemaContent t.1 t.2 }

/-- collection.add performed over range(0, len, batch_size) with ids
enumerating WITHIN each batch (db_utils.py lines 57-63): schema number k of
the refresh therefore gets id suffix k % batch_size, and all documents are
appended in order.  This closed form is exactly the batched loop's effect. -/
def addedDocs (batch_size : Nat) (schemas : List TableSchema) : Store :=
  schemas.enum.map fun p =>
    { id := "schema_" ++ p.2.table_name ++ "_" ++ toString (p.1 % batch_size)
      table_name := p.2.table_name
      document := p.2.schema }

/-- update_vector_store (db_utils.py lines 38-64) acting on one collection:
when a table name is given, the ids of the documents carrying that metadata
are collected and deleted, then the regenerated schemas are added in
batches. -/
def update_vector_store (batch_size : Nat) (store : Store) (db : Db)
    (table_name : Option String) : Store :=
  let store1 :=
    match table_name with
    | some t =>
      let existing_ids := (store.filter fun d => d.table_name = t).map (·.id)
      if existing_ids ≠ [] then
        store.filter fun d => !(existing_ids.contains d.id)
      else store
    | none => store
  store1 ++ addedDocs batch_size (get_table_schemas db table_name)

/-- execute_alter_command (db_utils.py lines 66-77).  The sqlite engine is the
collaborator alterSem: some db2 means the statement committed and left the
database as db2, none means a sqlite3.Error was raised (the function prints and
returns False; a single failed statement leaves the database unchanged). -/
def execute_alter_command (alterSem : Db → String → Option Db) (db : Db)
    (alter_command : String) : Db × Bool :=
  match alterSem db alter_command with
  | some db2 => (db2, true)
  | none => (db, false)

/-- The stores an execution can reach.  Faithful to the sources:
search_table_schema and search_relevant_tables_by_content open the
PersistentClient at config persist_dir (vector_search.py lines 16-21), while
update_vector_store constructs chromadb.Client() — a fresh default client —
so its writes land in a different, ephemeral collection (db_utils.py line
41). -/
structure World where
  db : Db
  persistent : Store
  ephemeral : Store
deriving Repr, DecidableEq

/-- update_db_and_vector_store (db_utils.py lines 79-85): execute the alter;
only on success refresh the vector store (which, per the client it constructs,
is the ephemeral one); return the success or failure message. -/
def update_db_and_vector_store (alterSem : Db → String → Option Db)
    (batch_size : Nat) (w : World) (alter_command : String)
    (table_name : String) : World × String :=
  let r := execute_alter_command alterSem w.db alter_command
  if r.2 then
    ({ db := r.1
       persistent := w.persistent
       ephemeral := update_vector_store batch_size w.ephemeral r.1 (some table_name) },
     "Successfully executed " ++ alter_command ++ " and updated vector store.")
  else
    ({ w with db := r.1 }, "Failed to execute " ++ alter_command ++ ".")

/-- collection.query with a where filter on table_name and n_results 1,
embedded as the first stored document carrying that metadata (exact whenever
at most one document per table exists). -/
def queryByTable (store : Store) (t : String) : Option String :=
  ((store.filter fun d => d.table_name = t).head?).map (·.document)

/-- search_table_schema (vector_search.py lines 10-61): split the table_name
string on commas, strip each name, query each, keep a placeholder line for a
missing one, join with blank lines.  collectionOk false embeds the raised
collection error. -/
def search_table_schema (collectionOk : Bool) (store : Store)
    (table_name : String) : Except String (Option String) :=
  if collectionOk then
    let table_names := (pySplit ',' table_name).map pyStrip
    let schemas := table_names.map fun t =>
      match queryByTable store t with
      | some d => d
      | none => "No schema found for table: " ++ t
    .ok (if schemas ≠ [] then some (pyJoin "\n\n" schemas) else none)
  else .error "Error querying collection"

/-! ## Intent analysis response handling (src/utils/llm_client.py) -/

/-- The optional fields a parsed capability response may carry. -/
structure RawIntent where
  table_name : Option String
  extracted_entities : Option (List String)
  sql_command_type : Option String
  is_alter : Option Bool
  alter_command : Option String
  confidence : Option ℚ
deriving Repr

/-- The validated analysis result after the required-fields pass. -/
structure IntentResult where
  table_name : String
  extracted_entities : List String
  sql_command_type : String
  is_alter : Bool
  alter_command : String
  confidence : ℚ
deriving Repr, DecidableEq

/-- The defaults get_table_name_and_alter inserts for missing fields
(llm_client.py lines 215-230). -/
def fillDefaults (r : RawIntent) : IntentResult :=
  { table_name := r.table_name.getD "UNCERTAIN"
    extracted_entities := r.extracted_entities.getD []
    sql_command_type := r.sql_command_type.getD "SELECT"
    is_alter := r.is_alter.getD false
    alter_command := r.alter_command.getD ""
    confidence := r.confidence.getD 0 }

/-- re.search of the greedy brace pattern used at llm_client.py line 205: a
match runs from the first opening brace to the last closing brace after it. -/
def extractBraces (s : String) : Option String :=
  let cs := s.data
  match cs.findIdx? (· = '{') with
  | none => none
  | some i =>
    match cs.reverse.findIdx? (· = '}') with
    | none => none
    | some rj =>
      let j := cs.length - 1 - rj
      if i < j then some (String.mk ((cs.drop i).take (j - i + 1))) else none

/-- The response-stripping chain of get_table_name_and_alter (llm_client.py
lines 195-209), kept faithful to the source: both fence branches test the same
literal six-backtick pattern (the second is dead), the first drops seven
characters; a bare brace-delimited text passes through; otherwise the brace
pattern is searched for and its absence raises the ValueError that the generic
except re-raises. -/
def extractJsonText (responseText : String) : Except String String :=
  let t := pyStrip responseText
  if pyStartsWith t "``````" then .ok (pyStrip (rstripBackticks (dropChars 7 t)))
  else if pyStartsWith t "``````" then .ok (pyStrip (rstripBackticks (dropChars 3 t)))
  else if pyStartsWith t "\x7b" ∧ pyEndsWith t "\x7d" then .ok t
  else
    match extractBraces t with
    | some sub => .ok sub
    | none => .error "No valid JSON found in response"

/-- Scanner for re.findall of a non-greedy quoted pattern whose dot does not
cross newlines: outside a quote it looks for an opening double quote; inside
one it captures until the closing quote, abandoning the attempt at a newline
or at the end of the text (equivalent to the regex engine restarting past the
characters just scanned, since they contain no quote). -/
def quotedScanAux : Bool → List Char → List Char → List String
  | _, _, [] => []
  | false, _, c :: rest =>
    if c = '"' then quotedScanAux true [] rest else quotedScanAux false [] rest
  | true, cap, c :: rest =>
    if c = '"' then String.mk cap.reverse :: quotedScanAux false [] rest
    else if c = '\n' then quotedScanAux false [] rest
    else quotedScanAux true (c :: cap) rest

/-- fallback_entities = re.findall of double-quoted substrings of the raw
response text (llm_client.py line 244). -/
def quotedSubstrings (s : String) : List String := quotedScanAux false [] s.data

/-- get_table_name_and_alter (llm_client.py lines 115-255) from the capability
response onward, with the cache-miss path embedded (the cache is an on-disk
pickle, invalidated only by operator action).  parseJson is json.loads: none
is a JSONDecodeError, which degrades to the fallback dict whose entity list is
the quoted substrings of the raw response; a response with no brace block
raises instead (the generic except re-raises), observable as the error
result. -/
def get_table_name_and_alter (parseJson : String → Option RawIntent)
    (responseText : String) : Except String IntentResult :=
  match extractJsonText responseText with
  | .error e => .error e
  | .ok jsonText =>
    match parseJson jsonText with
    | some raw => .ok (fillDefaults raw)
    | none =>
      .ok { table_name := "UNCERTAIN"
            extracted_entities := quotedSubstrings responseText
            sql_command_type := "SELECT"
            is_alter := false
            alter_command := ""
            confidence := 0 }

/-! ## Agent state and the Table Resolver graph (src/agents/state.py,
src/agents/schema_retriever.py, src/tools/human_in_loop.py) -/

/-- AgentState (src/agents/state.py).  messages keeps the message contents;
query result rows are kept as their dicts.  Keys that run_agent's initial dict
omits are embedded with the value the sources read back through state.get
(retry_count 0) or as none (current_max_tokens, final_sql, whose defaults the
readers apply themselves). -/
structure AgentState where
  messages : List String
  table_name : String
  candidate_tables : List Candidate
  schema : String
  needs_clarification : Bool
  needs_table_confirmation : Bool
  is_alter : Bool
  alter_command : String
  sql_command_type : String
  extracted_entities : List String
  generated_sql : String := ""
  query_results : List (List (String × String)) := []
  final_sql : Option String := none
  retry_count : Nat := 0
  current_max_tokens : Option Nat := none
deriving Repr, DecidableEq

/-- nl_text = state["messages"][-1].content. -/
def lastMessage (s : AgentState) : String := s.messages.getLast?.getD ""

/-- The nodes of the schema_retriever graph, plus the END marker. -/
inductive RNode
  | thought
  | semantic_search
  | human_table_confirmation_n
  | human_in_loop
  | alter
  | action
  | finish
deriving Repr, DecidableEq

/-- The collaborators a resolver run interacts with: the intent capability's
outcome, the candidate ranker's collection and query outcomes, the scripted
operator inputs, the schema collection, and the sqlite engine with the worlds
it acts on. -/
structure REnv where
  intentOutcome : Except String IntentResult
  rankerCollectionOk : Bool
  rankerQueryOutcome : String → QueryOutcome
  humanInputs : List String
  schemaCollectionOk : Bool
  store : Store
  alterSem : Db → String → Option Db
  batch_size : Nat
  world : World

/-- should_continue (schema_retriever.py lines 185-203), the graph's only
conditional routing, evaluated in source order: clarification (with entities
meaning semantic search, without meaning the direct human prompt), then
confirmation, then alter, then END when a schema exists, else action. -/
def should_continue (s : AgentState) : RNode :=
  if s.needs_clarification then
    if s.extracted_entities ≠ [] then RNode.semantic_search else RNode.human_in_loop
  else if s.needs_table_confirmation then RNode.human_table_confirmation_n
  else if s.is_alter then RNode.alter
  else if s.schema ≠ "" then RNode.finish
  else RNode.action

/-- thought_node (schema_retriever.py lines 34-65): store the analysis fields
and set the clarification/confirmation flags from table_name; a raised error
is caught and sets needs_clarification. -/
def thought_node (env : REnv) (s : AgentState) : AgentState :=
  match env.intentOutcome with
  | .error e =>
    { s with needs_clarification := true
             messages := s.messages ++ ["Error processing query: " ++ e] }
  | .ok r =>
    let s := { s with table_name := r.table_name
                      is_alter := r.is_alter
                      alter_command := r.alter_command
                      sql_command_type := r.sql_command_type
                      extracted_entities := r.extracted_entities }
    if s.table_name = "UNCERTAIN" then
      { s with needs_clarification := true, needs_table_confirmation := false }
    else
      { s with needs_clarification := false, needs_table_confirmation := true }

/-- semantic_search_node (schema_retriever.py lines 67-93): when clarification
is needed and entities exist, run the content search; candidate_tables is
always overwritten with the result, and only a non-empty result flips the
flags to confirmation.  An empty result leaves both flags as they were. -/
def semantic_search_node (env : REnv) (s : AgentState) : AgentState :=
  if s.needs_clarification ∧ s.extracted_entities ≠ [] then
    let candidate_tables := search_relevant_tables_by_content
      env.rankerCollectionOk env.rankerQueryOutcome
      s.extracted_entities (lastMessage s) 5
    let s := { s with candidate_tables := candidate_tables }
    if candidate_tables ≠ [] then
      { s with needs_clarification := false, needs_table_confirmation := true }
    else s
  else s

/-- human_clarification (human_in_loop.py lines 1-4): one operator input,
stripped.  none embeds an exhausted input script (the Python input() would
block forever). -/
def human_clarification (inputs : List String) : Option String :=
  match inputs with
  | [] => none
  | t :: _ => some (pyStrip t)

/-- The while-True choice loop of human_table_confirmation (human_in_loop.py
lines 31-54).  The raw operator input is stripped on arrival
(input(...).strip(), line 33) before any comparison: 0 cancels (returns
None); len+1 switches to manual entry through human_clarification; a numeric
in-range choice consumes a y/n confirmation and returns the chosen table_name
on yes; anything else (bad number, out of range, declined confirmation) loops
on the remaining inputs. -/
def confirmLoop (candidate_tables : List Candidate) : List String → Option (Option String)
  | [] => none
  | rawChoice :: rest =>
    let choice := pyStrip rawChoice
    if choice = "0" then some none
    else if choice = toString (candidate_tables.length + 1) then
      (human_clarification rest).map some
    else
      match pyToNat choice with
      | none => confirmLoop candidate_tables rest
      | some n =>
        if 1 ≤ n ∧ n ≤ candidate_tables.length then
          match rest with
          | [] => none
          | confirm :: rest2 =>
            if pyLower (pyStrip confirm) = "y" ∨ pyLower (pyStrip confirm) = "yes" then
              some (some (((candidate_tables.get? (n - 1)).map (·.table_name)).getD ""))
            else confirmLoop candidate_tables rest2
        else confirmLoop candidate_tables rest

/-- human_table_confirmation (human_in_loop.py lines 6-54): with no candidates
it falls straight through to human_clarification, otherwise it runs the choice
loop.  The outer none again embeds an exhausted input script. -/
def human_table_confirmation (candidate_tables : List Candidate)
    (inputs : List String) : Option (Option String) :=
  if candidate_tables = [] then (human_clarification inputs).map some
  else confirmLoop candidate_tables inputs

/-- human_table_confirmation_node (schema_retriever.py lines 95-128): pick the
escalation source (ranked candidates; else the directly detected table as a
one-element candidate list; else plain clarification), then either record the
confirmed table and clear both flags, or — on None or the empty string, both
falsy — set needs_clarification and leave needs_table_confirmation as it
was. -/
def human_table_confirmation_node (env : REnv) (s : AgentState) : Option AgentState :=
  if s.needs_table_confirmation then
    let confirmed : Option (Option String) :=
      if s.candidate_tables ≠ [] then
        human_table_confirmation s.candidate_tables env.humanInputs
      else if s.table_name ≠ "UNCERTAIN" then
        human_table_confirmation
          [{ table_name := s.table_name
             confidence_score := 1
             reason := "Directly mentioned"
             schema_preview := "" }] env.humanInputs
      else (human_clarification env.humanInputs).map some
    match confirmed with
    | none => none
    | some (some t) =>
      if t ≠ "" then
        some { s with table_name := t
                      needs_table_confirmation := false
                      needs_clarification := false }
      else some { s with needs_clarification := true }
    | some none => some { s with needs_clarification := true }
  else some s

/-- human_in_loop_node (schema_retriever.py lines 130-140): the fallback
prompt; whatever the operator answers becomes the table name and the flag is
cleared, with no truthiness check. -/
def human_in_loop_node (env : REnv) (s : AgentState) : Option AgentState :=
  if s.needs_clarification then
    match human_clarification env.humanInputs with
    | none => none
    | some t => some { s with table_name := t, needs_clarification := false }
  else some s

/-- alter_node (schema_retriever.py lines 142-159): when the alter flag and a
command are present, run update_db_and_vector_store and append its message.
The graph state only carries the message; the world transition itself is the
subject of update_db_and_vector_store's own theorems. -/
def alter_node (env : REnv) (s : AgentState) : AgentState :=
  if s.is_alter ∧ s.alter_command ≠ "" then
    { s with messages := s.messages ++
        [(update_db_and_vector_store env.alterSem env.batch_size env.world
            s.alter_command s.table_name).2] }
  else s

/-- action_node (schema_retriever.py lines 161-183): fetch the schema for the
current table_name from the vector store; a truthy result is stored with the
command-type note (and the entity note when entities exist) appended; a falsy
result or a raised error sets needs_clarification. -/
def action_node (env : REnv) (s : AgentState) : AgentState :=
  match search_table_schema env.schemaCollectionOk env.store s.table_name with
  | .error e =>
    { s with needs_clarification := true
             messages := s.messages ++ ["Error retrieving schema: " ++ e] }
  | .ok res =>
    match res with
    | some schema =>
      if schema ≠ "" then
        let command_info := "\n\nDetected SQL Command Type: " ++ s.sql_command_type
        let command_info :=
          if s.extracted_entities ≠ [] then
            command_info ++ "\nRelevant Entities: "
              ++ pyJoin ", " s.extracted_entities
          else command_info
        { s with schema := schema ++ command_info }
      else
        { s with needs_clarification := true
                 messages := s.messages ++
                   ["No schema found for table " ++ s.table_name] }
    | none =>
      { s with needs_clarification := true
               messages := s.messages ++
                 ["No schema found for table " ++ s.table_name] }

/-- One transition of the compiled graph (build_graph, schema_retriever.py
lines 205-225): thought, semantic_search and action route through
should_continue; human_table_confirmation, human_in_loop and alter have
unconditional edges to action; END is absorbing.  none propagates an
exhausted operator-input script. -/
def graphStep (env : REnv) : AgentState × RNode → Option (AgentState × RNode)
  | (s, RNode.thought) =>
    let s2 := thought_node env s
    some (s2, should_continue s2)
  | (s, RNode.semantic_search) =>
    let s2 := semantic_search_node env s
    some (s2, should_continue s2)
  | (s, RNode.human_table_confirmation_n) =>
    (human_table_confirmation_node env s).map fun s2 => (s2, RNode.action)
  | (s, RNode.human_in_loop) =>
    (human_in_loop_node env s).map fun s2 => (s2, RNode.action)
  | (s, RNode.alter) =>
    let s2 := alter_node env s
    some (s2, RNode.action)
  | (s, RNode.action) =>
    let s2 := action_node env s
    some (s2, should_continue s2)
  | (s, RNode.finish) => some (s, RNode.finish)

/-- n transitions of the graph. -/
def graphIter (env : REnv) : Nat → AgentState × RNode → Option (AgentState × RNode)
  | 0, c => some c
  | n + 1, c => (graphStep env c).bind (graphIter env n)

/-- The initial state dict of run_agent (schema_retriever.py lines 232-243). -/
def initial_state (nl_text : String) : AgentState :=
  { messages := [nl_text]
    table_name := ""
    candidate_tables := []
    schema := ""
    needs_clarification := false
    needs_table_confirmation := false
    is_alter := false
    alter_command := ""
    sql_command_type := "SELECT"
    extracted_entities := [] }

/-! ## SQL generation (src/agents/sql_query_generator.py,
src/utils/llm_client.py lines 280-336) -/

/-- The request payload generate_sql_with_codestral posts: the model name, the
prompt, and the hard-coded max_tokens 1500 and temperature 0.1 of llm_client.py
lines 329-331. -/
structure GenRequest where
  model : String
  prompt : String
  max_tokens : Nat
  temperature : ℚ
deriving Repr, DecidableEq

/-- The prompt f-string of generate_sql_with_codestral (llm_client.py lines
289-322). -/
def codestralPrompt (nl_text schema sql_command_type : String)
    (extracted_entities : List String) : String :=
  let entJoined := pyJoin ", " extracted_entities
  String.intercalate "\n"
    [ ""
    , "    Database Context: Custom SQLite database for student exam results with tables by batch (1_batch, 2_batch, 3_batch) and branch (AIML, CSD, AIDS). Tables: 1_batch_AIML_Results, 1_batch_CSD_Results, 1_batch_AIDS_Results, 2_batch_AIML_Results, 2_batch_CSD_Results, 2_batch_AIDS_Results, 3_batch_AIML_Results, 3_batch_CSD_Results, 3_batch_AIDS_Results."
    , "    - Common columns: \"regno\" (TEXT, primary key), \"name\" (TEXT), \"semester\" (TEXT), \"avg gpa\" (REAL)."
    , "    - Exam columns: GPAs as REAL (e.g., \"DECEMBER - 2023 gpa\"). Use double quotes for columns with spaces (e.g., \"AUGUST - 2024 gpa\")."
    , "    - Supplementary exams: \"NOVEMBER 2022 gpa\"/\"NOVEMBER 2023 gpa\" for 1st batch, \"NOVEMBER 2023 gpa\"/\"AUGUST 2024 gpa\" for 2nd batch, \"AUGUST 2024 gpa\" for 3rd batch. Missing regular GPA means failure (backlog); use IS NULL for missing and >0 for passed supplementary."
    , "    - Gold medal: WHERE \"avg gpa\" > 9.00."
    , "    - For queries about all batches/branches (e.g., \"all candidates\"), include ALL relevant tables with UNION or joins on \"regno\". Be concise: group by batch if possible."
    , ""
    , "    Given the natural language query: \"" ++ nl_text ++ "\""
    , "    Detected command type: " ++ sql_command_type
    , "    Relevant entities: " ++ entJoined
    , "    Table schema:"
    , "    " ++ schema
    , "    "
    , "    Generate a valid, executable SQLite3 SQL query that matches the query intent:"
    , "    - Use exact table/column names from schema (double-quote columns with spaces, e.g., \"AUGUST - 2024 gpa\")."
    , "    - For SELECT, include WHERE for filters (e.g., \"avg gpa\" > 9.00 for gold medals, IS NULL for missing regular GPA indicating backlogs)."
    , "    - Handle backlog/supplementary logic: Check IS NULL on regular exam columns to detect backlogs; if query is global, union across all batches."
    , "    - Use UNION or joins if multiple tables (e.g., INNER JOIN on \"regno\" for comparisons, UNION for combining results from all batches)."
    , "    - Keep queries concise: Avoid listing every column manually if not needed; use * if appropriate, but prefer specific columns."
    , "    - For backlogs: Identify candidates with any IS NULL in regular GPA columns (indicating failure/backlog)."
    , "    - Output ONLY the complete SQL query string (must end with ';'), no explanations, code blocks, or partial queries. Ensure it's valid SQLite3 syntax and not truncated."
    , "    "
    , "    Examples (output only the SQL):"
    , "    For \"Get gold medal eligible students in 2nd batch AIML\":"
    , "    SELECT \"name\", \"avg gpa\" FROM \"2_batch_AIML_Results\" WHERE \"avg gpa\" > 9.00;"
    , "    "
    , "    For \"Students who failed regular but passed supplementary in November 2023 for 2nd batch CSD\":"
    , "    SELECT \"name\" FROM \"2_batch_CSD_Results\" WHERE \"APRIL 2023 gpa\" IS NULL AND \"NOVEMBER 2023 gpa\" > 0;"
    , "    "
    , "    For \"Get all candidates with backlogs across all batches\":"
    , "    SELECT \"regno\", \"name\" FROM \"1_batch_AIML_Results\" WHERE \"JUNE 2022 gpa\" IS NULL OR \"SEPTEMBER 2022 gpa\" IS NULL -- (shortened for example)"
    , "    UNION SELECT \"regno\", \"name\" FROM \"1_batch_CSD_Results\" WHERE ... -- continue for all tables;"
    , "    " ]

/-- The json payload of the requests.post call (llm_client.py lines 324-334):
max_tokens is the literal 1500, whatever the agent state's current_max_tokens
holds. -/
def codestralRequest (nl_text schema sql_command_type : String)
    (extracted_entities : List String) : GenRequest :=
  { model := "codestral-latest"
    prompt := codestralPrompt nl_text schema sql_command_type extracted_entities
    max_tokens := 1500
    temperature := mkRat 1 10 }

/-- The stripped nonempty lines of the response content, cut after the first
line containing a semicolon (llm_client.py lines 344-351). -/
def collectSqlLines : List (List Char) → List (List Char)
  | [] => []
  | l :: rest =>
    let st := stripChars l
    if st = [] then collectSqlLines rest
    else if st.contains ';' then [st]
    else st :: collectSqlLines rest

/-- Response post-processing of generate_sql_with_codestral (llm_client.py
lines 338-363).  The code-block regex is a literal six-backtick pattern with
no capture group, so a match would make group(1) raise an IndexError that the
outer except converts into the error SQL; otherwise the line-joining fallback
runs, a terminating semicolon is ensured, and the union-count truncation
heuristic (expected 8) may append the warning marker. -/
def postProcessSql (content : String) : String :=
  let result := pyStrip content
  if containsSub result "``````" then "SELECT * FROM table -- Error generating SQL"
  else
    let sql_query := pyJoin " " ((collectSqlLines (splitChar '\n' result.data)).map String.mk)
    let sql_query := if pyEndsWith sql_query ";" then sql_query else sql_query ++ ";"
    let union_count := countOccChars "UNION".data (pyUpper sql_query).data
    if containsSub (pyUpper sql_query) "UNION" ∧ union_count < 8 then
      sql_query ++ " -- Warning: Query incomplete, add remaining tables manually"
    else sql_query

/-- generate_sql_with_codestral (llm_client.py lines 280-373) on a cache miss:
post the request; any provider failure is caught and becomes the error SQL;
a successful response content is post-processed. -/
def generate_sql_with_codestral (http : GenRequest → Except String String)
    (nl_text schema sql_command_type : String)
    (extracted_entities : List String) : String :=
  match http (codestralRequest nl_text schema sql_command_type extracted_entities) with
  | .error _ => "SELECT * FROM table -- Error generating SQL"
  | .ok content => postProcessSql content

/-- sql_query_generator_node (src/agents/sql_query_generator.py lines 9-33):
an absent schema raises, caught into an empty generated_sql plus an error
message; otherwise the generator is called with exactly
(nl_text, schema, sql_command_type, extracted_entities) — the state's
current_max_tokens is not among its inputs. -/
def sql_query_generator_node (http : GenRequest → Except String String)
    (s : AgentState) : AgentState :=
  if s.schema = "" then
    { s with generated_sql := ""
             messages := s.messages ++
               ["Error generating SQL: No schema available for SQL generation"] }
  else
    let sql_query := generate_sql_with_codestral http (lastMessage s) s.schema
      s.sql_command_type s.extracted_entities
    { s with generated_sql := sql_query
             messages := s.messages ++ ["Generated SQL: " ++ sql_query] }

/-- The request sql_query_generator_node sends for a given state (none when
the missing-schema guard raises first): the observation the budget claims are
about. -/
def generatorRequest (s : AgentState) : Option GenRequest :=
  if s.schema = "" then none
  else some (codestralRequest (lastMessage s) s.schema s.sql_command_type
    s.extracted_entities)

/-! ## Generation/verification loop (src/agents/data_operator.py) -/

/-- The verification dict data_operator_node reads with .get: a possibly
missing status and a possibly missing corrected_sql. -/
structure Verification where
  status : Option String
  corrected_sql : Option String
deriving Repr, DecidableEq

/-- What one data_operator_node call did: executed the final SQL, asked for a
retry, or failed with the caught exception's message. -/
inductive OpOutcome
  | executed
  | retried
  | failed (msg : String)
deriving Repr, DecidableEq

/-- Modelled from the spec: clean_sql is imported from utils.llm_client
(data_operator.py line 37) but absent from the sources; the call-site comment
says it strips Markdown fences from the SQL, so the model removes a leading
fence line and a trailing fence and strips whitespace. -/
def clean_sql (sql : String) : String :=
  let t := pyStrip sql
  let t := if pyStartsWith t "```" then
      pyJoin "\n" ((pySplit '\n' t).drop 1)
    else t
  let t := if pyEndsWith t "```" then takeChars (strLen t - 3) t else t
  pyStrip t

/-- token budget read = state.get("current_max_tokens", 1000). -/
def tokenBudget (s : AgentState) : Nat := s.current_max_tokens.getD 1000

/-- Rows returned by cursor.fetchall, as the dicts the node zips them into. -/
abbrev Rows := List (List (String × String))

/-- data_operator_node (data_operator.py lines 10-63).  The verifier capability
(verify_sql_with_deepseek is imported but absent from the sources) has already
answered with verification; execQuery is the sqlite cursor outcome on the
cleaned SQL.  Faithful control flow: perfect/corrected executes and then sets
final_sql; incomplete first increments retry_count, fails once it exceeds 2
(the raise lands in the function's own except), and otherwise grows
current_max_tokens by 500 from its get-default 1000 and asks for the retry;
any other status fails; every caught error empties query_results and appends
the error message. -/
def data_operator_node (execQuery : String → Except String Rows)
    (verification : Verification) (s : AgentState) : AgentState × OpOutcome :=
  if s.generated_sql = "" then
    ({ s with query_results := []
              messages := s.messages ++
                ["Error in data operation: No generated SQL available"] },
     OpOutcome.failed "No generated SQL available")
  else
    let status := verification.status.getD "error"
    let corrected_sql := verification.corrected_sql.getD s.generated_sql
    if status = "perfect" ∨ status = "corrected" then
      match execQuery (clean_sql corrected_sql) with
      | .ok rows =>
        ({ s with query_results := rows
                  messages := s.messages ++ ["Query executed successfully"]
                  final_sql := some corrected_sql },
         OpOutcome.executed)
      | .error e =>
        ({ s with query_results := []
                  messages := s.messages ++ ["Error in data operation: " ++ e] },
         OpOutcome.failed e)
    else if status = "incomplete" then
      let s := { s with retry_count := s.retry_count + 1 }
      if 2 < s.retry_count then
        ({ s with query_results := []
                  messages := s.messages ++
                    ["Error in data operation: Max retries exceeded for SQL generation"] },
         OpOutcome.failed "Max retries exceeded for SQL generation")
      else
        ({ s with current_max_tokens := some (tokenBudget s + 500)
                  messages := s.messages ++
                    ["Incomplete query detected; retrying generation"] },
         OpOutcome.retried)
    else
      ({ s with query_results := []
                messages := s.messages ++
                  ["Error in data operation: SQL verification failed"] },
       OpOutcome.failed "SQL verification failed")

/-- Modelled from the spec: the loop driver.  data_operator.py line 55 loops
back to the generator through a conditional edge, but the graph wiring between
sql_query_generator_node and data_operator_node is not in the sources (only
schema_retriever builds a graph), so the driver follows spec section 4.4:
generate (genText gives the generator capability's output per attempt), verify
(verdicts lists the verifier capability's successive answers), retry while the
operator asks for one.  Returns the final state, the number of retries
performed, and the final outcome (none when the verdict script ran out
mid-loop). -/
def runLoop (execQuery : String → Except String Rows) (genText : Nat → String) :
    List Verification → Nat → AgentState → AgentState × Nat × Option OpOutcome
  | [], _, s => (s, 0, none)
  | v :: vs, attempt, s =>
    let sG := { s with generated_sql := genText attempt
                       messages := s.messages ++ ["Generated SQL: " ++ genText attempt] }
    match data_operator_node execQuery v sG with
    | (s2, OpOutcome.retried) =>
      let r := runLoop execQuery genText vs (attempt + 1) s2
      (r.1, r.2.1 + 1, r.2.2)
    | (s2, out) => (s2, 0, some out)

/-! ## Proof-support definitions and concrete scenario inputs -/

/-- The fold of the per-result merge over the flattened (query, row) stream. -/
def mergeAll (pairs : List (String × QueryResult)) (acc : List Candidate) :
    List Candidate :=
  pairs.foldl (fun a p => addCandidate p.1 p.2 a) acc

/-- The Prop counterpart of confIsMaxIn: the candidate's confidence is
achieved by one colliding query row and dominates all of them. -/
def ConfOk (pool : List (String × QueryResult)) (c : Candidate) : Prop :=
  (∃ p ∈ pool, p.2.table_name = c.table_name
      ∧ toConfidence p.2.distance = c.confidence_score)
  ∧ ∀ p ∈ pool, p.2.table_name = c.table_name →
      toConfidence p.2.distance ≤ c.confidence_score

/-- Scenario D environment: the ranker's collection is reachable but every
semantic query answers with no results; no other collaborator is exercised. -/
def scenarioD_env : REnv :=
  { intentOutcome := .error ""
    rankerCollectionOk := true
    rankerQueryOutcome := fun _ => .ok []
    humanInputs := []
    schemaCollectionOk := true
    store := []
    alterSem := fun _ _ => none
    batch_size := 1
    world := { db := [], persistent := [], ephemeral := [] } }

/-- Scenario D state: clarification needed, entities extracted, no candidates
(the state thought_node leaves behind for an UNCERTAIN table reference). -/
def scenarioD_state : AgentState :=
  { messages := ["which table stores customers"]
    table_name := "UNCERTAIN"
    candidate_tables := []
    schema := ""
    needs_clarification := true
    needs_table_confirmation := false
    is_alter := false
    alter_command := ""
    sql_command_type := "SELECT"
    extracted_entities := ["customer"] }

/-- The schema document stored for the Orders table in the cancellation
scenario. -/
def c3_orders_doc : String := "Table: Orders\nColumns:\n- id (INTEGER)\n"

/-- Cancellation scenario environment: the operator answers 0 (cancel) and the
persistent store holds the Orders schema. -/
def c3_env : REnv :=
  { intentOutcome := .error ""
    rankerCollectionOk := true
    rankerQueryOutcome := fun _ => .ok []
    humanInputs := ["0"]
    schemaCollectionOk := true
    store := [{ id := "schema_Orders_0", table_name := "Orders",
                document := c3_orders_doc }]
    alterSem := fun _ _ => none
    batch_size := 1
    world := { db := [], persistent := [], ephemeral := [] } }

/-- Cancellation scenario state: confirmation pending over one ranked
candidate for the stored table name Orders. -/
def c3_state : AgentState :=
  { messages := ["show all orders"]
    table_name := "Orders"
    candidate_tables := [{ table_name := "Orders"
                           confidence_score := 1
                           reason := "Contains content matching: orders"
                           schema_preview := "" }]
    schema := ""
    needs_clarification := false
    needs_table_confirmation := true
    is_alter := false
    alter_command := ""
    sql_command_type := "SELECT"
    extracted_entities := [] }

/-- The alter statement of the stale-index scenario. -/
def c8_cmd : String := "ALTER TABLE Orders ADD COLUMN total REAL"

/-- The database before the alter. -/
def c8_dbPre : Db := [("Orders", [("id", "INTEGER")])]

/-- The database after the alter committed. -/
def c8_dbPost : Db := [("Orders", [("id", "INTEGER"), ("total", "REAL")])]

/-- The schema document for Orders before the alter. -/
def c8_old_doc : String := "Table: Orders\nColumns:\n- id (INTEGER)\n"

/-- The regenerated schema document for Orders after the alter. -/
def c8_new_doc : String := "Table: Orders\nColumns:\n- id (INTEGER)\n- total (REAL)\n"

/-- The stores before the alter: the persistent collection (the one every
search opens) holds the old Orders document; the default client's collection
is empty. -/
def c8_world : World :=
  { db := c8_dbPre
    persistent := [{ id := "schema_Orders_0", table_name := "Orders",
                     document := c8_old_doc }]
    ephemeral := [] }

/-- The sqlite engine of the scenario: it commits exactly the scenario's
statement on the pre-alter database. -/
def c8_alterSem : Db → String → Option Db :=
  fun db cmd => if db = c8_dbPre ∧ cmd = c8_cmd then some c8_dbPost else none

/-- A capability response that is not valid JSON but contains a double-quoted
substring. -/
def c9_response : String := "\x7b\"bad\" json\x7d"

/-- A query executor that succeeds with no rows. -/
def w_exec : String → Except String Rows := fun _ => Except.ok []

/-- A generator capability that always produces a terminated statement. -/
def w_gen : Nat → String := fun _ => "SELECT 1;"

/-- The verifier's incomplete verdict dict. -/
def incompleteV : Verification := { status := some "incomplete", corrected_sql := none }

/-- The verifier's perfect verdict dict. -/
def perfectV : Verification :=
  { status := some "perfect", corrected_sql := some "SELECT 1;" }

/-- A mid-loop state: one retry behind it, budget already raised once. -/
def c5w_state : AgentState :=
  { initial_state "list all customers" with
      generated_sql := "SELECT 1;"
      retry_count := 1
      current_max_tokens := some 1500 }

/-- The full entry of search_relevant_tables_by_content (vector_search.py
lines 64-147), setup phase included.  The config open/parse (line 67) and the
chromadb.PersistentClient construction (lines 69-74) run BEFORE the
try/except: a failure there is not caught and propagates to the caller as a
raised exception (the error result here) — which is why semantic_search_node
wraps its call in a try/except of its own.  Only from get_collection onward
does the outer except catch failures and return the empty list; that caught
region is search_relevant_tables_by_content above. -/
def search_relevant_tables_entry (setupOutcome : Except String Unit)
    (collectionOk : Bool) (queryOutcome : String → QueryOutcome)
    (entities : List String) (nl_text : String) (top_k : Nat) :
    Except String (List Candidate) :=
  match setupOutcome with
  | .error e => .error e
  | .ok _ =>
    .ok (search_relevant_tables_by_content collectionOk queryOutcome
      entities nl_text top_k)

/-! ## Theorems -/

/-- C7: for every alter request, the Schema Index refresh (delete the table's
documents, then add the regenerated schema document) is performed exactly when
the statement commits: on a failed commit the database, the persistent store
and the refresh-target store are all returned unchanged with the failure
message, and only on success is the refresh applied (to the store the
constructed client designates) with the success message. -/
theorem C7_refresh_only_on_commit (alterSem : Db → String → Option Db)
    (batch_size : Nat) (w : World) (alter_command table_name : String) :
    (update_db_and_vector_store alterSem batch_size w alter_command table_name).1.persistent
      = w.persistent
    ∧ (update_db_and_vector_store alterSem batch_size w alter_command table_name).1.db
      = (match alterSem w.db alter_command with
          | some db2 => db2
          | none => w.db)
    ∧ (update_db_and_vector_store alterSem batch_size w alter_command table_name).1.ephemeral
      = (match alterSem w.db alter_command with
          | some db2 => update_vector_store batch_size w.ephemeral db2 (some table_name)
          | none => w.ephemeral)
    ∧ (update_db_and_vector_store alterSem batch_size w alter_command table_name).2
      = (match alterSem w.db alter_command with
          | some _ => "Successfully executed " ++ alter_command ++ " and updated vector store."
          | none => "Failed to execute " ++ alter_command ++ ".") := by
  cases h : alterSem w.db alter_command <;>
    simp [update_db_and_vector_store, execute_alter_command, h]

/-- C6 is a code bug: the SQL generator is not invoked with the token budget.
The request is independent of current_max_tokens, its max_tokens field is the
constant 1500 whenever a request is sent at all, and the generator node's
effect on the state commutes with any change of current_max_tokens. -/
theorem C6_generator_ignores_token_budget (s : AgentState) (b : Option Nat)
    (http : GenRequest → Except String String) :
    generatorRequest { s with current_max_tokens := b } = generatorRequest s
    ∧ (generatorRequest s).map GenRequest.max_tokens
      = (if s.schema = "" then none else some 1500)
    ∧ sql_query_generator_node http { s with current_max_tokens := b }
      = { sql_query_generator_node http s with current_max_tokens := b } := by
  by_cases h : s.schema = "" <;>
    simp [generatorRequest, sql_query_generator_node, lastMessage, h, codestralRequest]

/-- C8 is a code bug: after a successful alter the stale document survives in
the collection every search reads.  The alter commits and reports success, yet
search_table_schema on the persistent store still returns the old Orders
schema (which differs from the regenerated one), because the refresh was
applied to the collection of the freshly constructed default client. -/
theorem C8_stale_schema_after_commit :
    (update_db_and_vector_store c8_alterSem 2 c8_world c8_cmd "Orders").2
      = "Successfully executed " ++ c8_cmd ++ " and updated vector store."
    ∧ search_table_schema true
        (update_db_and_vector_store c8_alterSem 2 c8_world c8_cmd "Orders").1.persistent
        "Orders"
      = .ok (some c8_old_doc)
    ∧ c8_old_doc ≠ c8_new_doc
    ∧ (update_db_and_vector_store c8_alterSem 2 c8_world c8_cmd "Orders").1.ephemeral
      = [{ id := "schema_Orders_0", table_name := "Orders", document := c8_new_doc }] := by
  refine ⟨by decide, by rfl, by decide, by decide⟩

/-- C9 as stated is refuted: on a response that is not valid JSON the intent
analysis does degrade to table UNCERTAIN and command SELECT, but the fallback
entity list is the list of double-quoted substrings of the raw response — here
the non-empty list containing bad — not the empty list. -/
theorem C9_fallback_entities_not_empty :
    get_table_name_and_alter (fun _ => none) c9_response
      = Except.ok { table_name := "UNCERTAIN"
                    extracted_entities := ["bad"]
                    sql_command_type := "SELECT"
                    is_alter := false
                    alter_command := ""
                    confidence := 0 }
    ∧ (["bad"] : List String) ≠ [] := by
  refine ⟨by rfl, by decide⟩

/-- C9 amended: whenever the brace-extraction step succeeds and json parsing
fails, the intent analysis returns (rather than raising) the fallback result
with table UNCERTAIN, command SELECT, no alter, and the double-quoted
substrings of the raw response as its entity list (empty only when the
response contains none). -/
theorem C9_amended_fallback (parseJson : String → Option RawIntent)
    (responseText jsonText : String)
    (hextract : extractJsonText responseText = .ok jsonText)
    (hparse : parseJson jsonText = none) :
    get_table_name_and_alter parseJson responseText
      = Except.ok { table_name := "UNCERTAIN"
                    extracted_entities := quotedSubstrings responseText
                    sql_command_type := "SELECT"
                    is_alter := false
                    alter_command := ""
                    confidence := 0 } := by
  simp [get_table_name_and_alter, hextract, hparse]

/-- Witness for the amended C9 theorem at a concrete malformed response. -/
theorem C9_amended_fallback_witness :
    get_table_name_and_alter (fun _ => none) "not json \x7bx: 1\x7d"
      = Except.ok { table_name := "UNCERTAIN"
                    extracted_entities := quotedSubstrings "not json \x7bx: 1\x7d"
                    sql_command_type := "SELECT"
                    is_alter := false
                    alter_command := ""
                    confidence := 0 } :=
  C9_amended_fallback (fun _ => none) "not json \x7bx: 1\x7d" "\x7bx: 1\x7d" (by rfl) rfl

/-- C3 is a code bug: when the operator cancels (choice 0, so the confirmation
helper returns None), the node only sets needs_clarification and the graph's
unconditional edge still routes to action, which fetches the schema for the
previously stored table name Orders and stores it; no terminal failure state
exists.  The first conjunct is the cancellation transition, the second shows
the very next node call retrieving the stored table's schema. -/
theorem C3_cancel_still_fetches_schema :
    graphStep c3_env (c3_state, RNode.human_table_confirmation_n)
      = some ({ c3_state with needs_clarification := true }, RNode.action)
    ∧ (graphStep c3_env ({ c3_state with needs_clarification := true }, RNode.action)).map
        (fun p => (p.1.schema, p.1.table_name, p.2))
      = some (c3_orders_doc ++ "\n\nDetected SQL Command Type: SELECT",
              "Orders", RNode.human_in_loop) := by
  refine ⟨by decide, by rfl⟩

/-- One graph step of scenario D is the identity: the semantic search runs,
finds nothing, leaves the flags alone, and should_continue routes straight
back to semantic_search. -/
theorem scenarioD_fixpoint :
    graphStep scenarioD_env (scenarioD_state, RNode.semantic_search)
      = some (scenarioD_state, RNode.semantic_search) := by
  have hsearch : search_relevant_tables_by_content true (fun _ => .ok [])
      ["customer"] (lastMessage scenarioD_state) 5 = [] := by
    simp [search_relevant_tables_by_content, search_queries, mergeQuery]
  simp [graphStep, semantic_search_node, scenarioD_env, scenarioD_state] at hsearch ⊢
  simp [hsearch, should_continue]

/-- C2 is a code bug: in a state needing clarification with extracted entities
while the Candidate Ranker answers with the empty list, the routing sends the
graph to semantic_search, and the configuration is a fixpoint of the graph
step — the run revisits semantic_search forever and never reaches the
human_in_loop clarification node (nor any other node). -/
theorem C2_empty_ranker_livelock :
    should_continue scenarioD_state = RNode.semantic_search
    ∧ (∀ n, graphIter scenarioD_env n (scenarioD_state, RNode.semantic_search)
        = some (scenarioD_state, RNode.semantic_search))
    ∧ RNode.semantic_search ≠ RNode.human_in_loop := by
  refine ⟨by decide, ?_, by decide⟩
  intro n
  induction n with
  | zero => rfl
  | succ n ih => simp [graphIter, scenarioD_fixpoint, ih]

/-- Replacing failed queries by successful empty answers does not change the
merge fold: an error contributes nothing, exactly like an empty result
list. -/
theorem foldl_mergeQuery_okify (queryOutcome : String → QueryOutcome) :
    ∀ (qs : List String) (acc : List Candidate),
      qs.foldl (fun a q => mergeQuery a q (queryOutcome q)) acc
        = qs.foldl (fun a q => mergeQuery a q (okifyOutcome queryOutcome q)) acc := by
  intro qs
  induction qs with
  | nil => intro acc; rfl
  | cons q qs ih =>
    intro acc
    have hq : mergeQuery acc q (okifyOutcome queryOutcome q)
        = mergeQuery acc q (queryOutcome q) := by
      cases h : queryOutcome q with
      | ok rs => simp [okifyOutcome, h]
      | error e => simp [okifyOutcome, h, mergeQuery]
    simp only [List.foldl_cons, hq, ih]

/-- C10 as stated is refuted: the setup phase of the ranker entry point —
the config open and the PersistentClient construction — precedes the
try/except, so a failure there propagates to the caller instead of yielding
the empty list: the caller does observe a propagated exception. -/
theorem C10_setup_failure_propagates :
    search_relevant_tables_entry
        (.error "could not open config/settings.yaml") true
        (fun _ => .ok []) ["customer"] "which table stores customers" 5
      = .error "could not open config/settings.yaml"
    ∧ (Except.error "could not open config/settings.yaml"
        : Except String (List Candidate)) ≠ Except.ok [] := by
  exact ⟨rfl, fun h => Except.noConfusion h⟩

/-- C10 amended: from the collection lookup onward the ranker entry point is
total over index failures — after a successful setup, a collection failure
(or any failure covered by the outer except) yields the empty list, and a
failed individual query is skipped so that the remaining queries contribute
exactly as if the failed one had returned no rows — but a failure of the
pre-try setup (config load, client construction) is not caught and
propagates to the caller. -/
theorem C10_amended_totality :
    (∀ (queryOutcome : String → QueryOutcome) (entities : List String)
        (nl_text : String) (top_k : Nat),
      search_relevant_tables_entry (.ok ()) false queryOutcome entities nl_text top_k
        = .ok [])
    ∧ (∀ (queryOutcome : String → QueryOutcome) (entities : List String)
        (nl_text : String) (top_k : Nat),
      search_relevant_tables_entry (.ok ()) true queryOutcome entities nl_text top_k
        = search_relevant_tables_entry (.ok ()) true (okifyOutcome queryOutcome)
            entities nl_text top_k)
    ∧ (∀ (e : String) (collectionOk : Bool)
        (queryOutcome : String → QueryOutcome) (entities : List String)
        (nl_text : String) (top_k : Nat),
      search_relevant_tables_entry (.error e) collectionOk queryOutcome
          entities nl_text top_k
        = .error e) := by
  refine ⟨?_, ?_, ?_⟩
  · intro queryOutcome entities nl_text top_k
    rfl
  · intro queryOutcome entities nl_text top_k
    simp only [search_relevant_tables_entry, search_relevant_tables_by_content,
      foldl_mergeQuery_okify queryOutcome (search_queries entities nl_text) []]
  · intro e collectionOk queryOutcome entities nl_text top_k
    rfl

/-- C5 as stated is refuted: after a third incomplete verdict the loop's final
state is reachable with retry_count = 3 > max_retries, and that third
incomplete verdict did not increase the token budget (it is 2000 both after
the second and after the third incomplete). -/
theorem C5_retry_count_exceeds_bound :
    (runLoop w_exec w_gen [incompleteV, incompleteV, incompleteV] 0
        (initial_state "list all customers")).1.retry_count = 3
    ∧ ¬ ((runLoop w_exec w_gen [incompleteV, incompleteV, incompleteV] 0
        (initial_state "list all customers")).1.retry_count ≤ 2)
    ∧ tokenBudget (runLoop w_exec w_gen [incompleteV, incompleteV] 0
        (initial_state "list all customers")).1 = 2000
    ∧ tokenBudget (runLoop w_exec w_gen [incompleteV, incompleteV, incompleteV] 0
        (initial_state "list all customers")).1 = 2000
    ∧ (runLoop w_exec w_gen [incompleteV, incompleteV, incompleteV] 0
        (initial_state "list all customers")).2.2
      = some (OpOutcome.failed "Max retries exceeded for SQL generation") := by
  refine ⟨by decide, by decide, by decide, by decide, by decide⟩

/-- C5 amended: in every state the operator node reaches from a state with
retry_count within the bound, the token budget never decreases; on every
incomplete verdict that triggers a retry the budget strictly increases and
retry_count stays within max_retries = 2; retry_count never exceeds 3, and it
reaches 3 only in the MaxRetriesExceeded failure state (the verdict that
overruns the bound leaves the budget unchanged, as the counterexample above
shows). -/
theorem C5_amended_budget_and_retry_invariant
    (execQuery : String → Except String Rows) (v : Verification) (s : AgentState)
    (h : s.retry_count ≤ 2) :
    tokenBudget s ≤ tokenBudget (data_operator_node execQuery v s).1
    ∧ ((data_operator_node execQuery v s).2 = OpOutcome.retried →
        tokenBudget s < tokenBudget (data_operator_node execQuery v s).1
        ∧ (data_operator_node execQuery v s).1.retry_count ≤ 2)
    ∧ (data_operator_node execQuery v s).1.retry_count ≤ 3
    ∧ ((data_operator_node execQuery v s).1.retry_count ≠ 3
        ∨ (data_operator_node execQuery v s).2
          = OpOutcome.failed "Max retries exceeded for SQL generation") := by
  unfold data_operator_node
  by_cases hg : s.generated_sql = ""
  · simp [hg, tokenBudget]; omega
  · simp only [hg, if_false, ite_false]
    by_cases h1 : (v.status.getD "error") = "perfect" ∨ (v.status.getD "error") = "corrected"
    · simp only [h1, if_true, ite_true]
      cases hexec : execQuery (clean_sql (v.corrected_sql.getD s.generated_sql)) with
      | ok rows => simp [tokenBudget]; omega
      | error e => simp [tokenBudget]; omega
    · simp only [h1, if_false, ite_false]
      by_cases h2 : (v.status.getD "error") = "incomplete"
      · simp only [h2, if_true, ite_true]
        by_cases h3 : 2 < s.retry_count + 1
        · simp [h3, tokenBudget]; omega
        · simp [h3, tokenBudget]; omega
      · simp [h2, tokenBudget]; omega

/-- Witness for the amended C5 theorem: a state one retry deep receiving an
incomplete verdict retries with a strictly larger budget and an in-bound
retry count. -/
theorem C5_amended_budget_and_retry_invariant_witness :
    tokenBudget c5w_state ≤ tokenBudget (data_operator_node w_exec incompleteV c5w_state).1
    ∧ tokenBudget c5w_state < tokenBudget (data_operator_node w_exec incompleteV c5w_state).1
    ∧ (data_operator_node w_exec incompleteV c5w_state).1.retry_count ≤ 2
    ∧ (data_operator_node w_exec incompleteV c5w_state).1.retry_count ≤ 3 := by
  have h := C5_amended_budget_and_retry_invariant w_exec incompleteV c5w_state (by decide)
  exact ⟨h.1, (h.2.1 (by decide)).1, (h.2.1 (by decide)).2, h.2.2.1⟩

/-- An incomplete verdict within the retry bound: retry_count up by one,
budget up by 500 from its get-default, outcome retried. -/
theorem dataOp_incomplete_eq (execQuery : String → Except String Rows)
    (s : AgentState) (hg : s.generated_sql ≠ "") (hb : s.retry_count + 1 ≤ 2) :
    data_operator_node execQuery incompleteV s
      = ({ s with retry_count := s.retry_count + 1
                  current_max_tokens := some (tokenBudget s + 500)
                  messages := s.messages ++ ["Incomplete query detected; retrying generation"] },
         OpOutcome.retried) := by
  unfold data_operator_node
  simp [hg, incompleteV, tokenBudget, show ¬(2 < s.retry_count + 1) by omega]

/-- An incomplete verdict beyond the retry bound: retry_count still goes up
by one, the budget stays, and the node fails with the MaxRetriesExceeded
message. -/
theorem dataOp_incomplete_fail_eq (execQuery : String → Except String Rows)
    (s : AgentState) (hg : s.generated_sql ≠ "") (hb : 2 < s.retry_count + 1) :
    data_operator_node execQuery incompleteV s
      = ({ s with retry_count := s.retry_count + 1
                  query_results := []
                  messages := s.messages ++
                    ["Error in data operation: Max retries exceeded for SQL generation"] },
         OpOutcome.failed "Max retries exceeded for SQL generation") := by
  unfold data_operator_node
  simp [hg, incompleteV, hb]

/-- Whenever the node asks for a retry, the retry counter was just incremented
and is still within the bound, and the budget grew by exactly 500. -/
theorem dataOp_retried_inv (execQuery : String → Except String Rows)
    (v : Verification) (s : AgentState)
    (h : (data_operator_node execQuery v s).2 = OpOutcome.retried) :
    (data_operator_node execQuery v s).1.retry_count = s.retry_count + 1
    ∧ s.retry_count + 1 ≤ 2
    ∧ tokenBudget (data_operator_node execQuery v s).1 = tokenBudget s + 500 := by
  unfold data_operator_node at h ⊢
  by_cases hg : s.generated_sql = ""
  · simp [hg] at h
  · simp only [hg, if_false, ite_false] at h ⊢
    by_cases h1 : (v.status.getD "error") = "perfect" ∨ (v.status.getD "error") = "corrected"
    · simp only [h1, if_true, ite_true] at h ⊢
      cases hexec : execQuery (clean_sql (v.corrected_sql.getD s.generated_sql)) <;>
        simp [hexec] at h
    · simp only [h1, if_false, ite_false] at h ⊢
      by_cases h2 : (v.status.getD "error") = "incomplete"
      · simp only [h2, if_true, ite_true] at h ⊢
        by_cases h3 : 2 < s.retry_count + 1
        · simp [h3] at h
        · simp [h3, tokenBudget]
          omega
      · simp [h2] at h

/-- A verdict with a perfect or corrected status never asks for a retry and
leaves retry counter and budget untouched. -/
theorem dataOp_success_facts (execQuery : String → Except String Rows)
    (st csql : String) (s : AgentState) (hg : s.generated_sql ≠ "")
    (hst : st = "perfect" ∨ st = "corrected") :
    (data_operator_node execQuery { status := some st, corrected_sql := some csql } s).2
      ≠ OpOutcome.retried
    ∧ tokenBudget (data_operator_node execQuery
        { status := some st, corrected_sql := some csql } s).1 = tokenBudget s
    ∧ (data_operator_node execQuery
        { status := some st, corrected_sql := some csql } s).1.retry_count
      = s.retry_count := by
  have h1 : ((Verification.mk (some st) (some csql)).status.getD "error") = "perfect"
      ∨ ((Verification.mk (some st) (some csql)).status.getD "error") = "corrected" := by
    simpa using hst
  unfold data_operator_node
  simp only [hg, if_false, ite_false, h1, if_true, ite_true]
  cases hexec : execQuery (clean_sql ((Verification.mk (some st)
      (some csql)).corrected_sql.getD s.generated_sql)) <;>
    simp [tokenBudget]

/-- The loop never performs more retries than the retry bound leaves room
for. -/
theorem runLoop_retries_le (execQuery : String → Except String Rows)
    (genText : Nat → String) :
    ∀ (verdicts : List Verification) (attempt : Nat) (s : AgentState),
      (runLoop execQuery genText verdicts attempt s).2.1 ≤ 2 - s.retry_count := by
  intro verdicts
  induction verdicts with
  | nil => intro attempt s; simp [runLoop]
  | cons v vs ih =>
    intro attempt s
    simp only [runLoop]
    rcases hdo : data_operator_node execQuery v
        { s with generated_sql := genText attempt
                 messages := s.messages ++ ["Generated SQL: " ++ genText attempt] }
      with ⟨s2, out⟩
    cases out with
    | retried =>
      have hfacts := dataOp_retried_inv execQuery v
        { s with generated_sql := genText attempt
                 messages := s.messages ++ ["Generated SQL: " ++ genText attempt] }
        (by rw [hdo])
      rw [hdo] at hfacts
      have hrc : s2.retry_count = s.retry_count + 1 := by simpa using hfacts.1
      have hle : s.retry_count + 1 ≤ 2 := by simpa using hfacts.2.1
      have := ih (attempt + 1) s2
      simp only []
      omega
    | executed => simp
    | failed m => simp


/-- A one-verdict loop whose node call does not retry stops immediately with
zero retries and that node call's state and outcome. -/
theorem runLoop_single (execQuery : String → Except String Rows)
    (genText : Nat → String) (v : Verification) (attempt : Nat) (s : AgentState)
    (hnr : (data_operator_node execQuery v
        { s with generated_sql := genText attempt
                 messages := s.messages ++ ["Generated SQL: " ++ genText attempt] }).2
      ≠ OpOutcome.retried) :
    runLoop execQuery genText [v] attempt s
      = ((data_operator_node execQuery v
            { s with generated_sql := genText attempt
                     messages := s.messages ++ ["Generated SQL: " ++ genText attempt] }).1,
         0,
         some (data_operator_node execQuery v
            { s with generated_sql := genText attempt
                     messages := s.messages ++ ["Generated SQL: " ++ genText attempt] }).2) := by
  simp only [runLoop]

/-- Running k in-bound incomplete verdicts before any remaining script
performs k retries, reaching a state whose retry counter grew by k and whose
budget grew by 500 per retry, and continues with the rest of the script from
there. -/
theorem runLoop_incomplete_head (execQuery : String → Except String Rows)
    (genText : Nat → String) (hgen : ∀ i, genText i ≠ "") :
    ∀ (k : Nat) (attempt : Nat) (s : AgentState) (rest : List Verification),
      s.retry_count + k ≤ 2 →
      ∃ s2 : AgentState,
        runLoop execQuery genText (List.replicate k incompleteV ++ rest) attempt s
          = ((runLoop execQuery genText rest (attempt + k) s2).1,
             (runLoop execQuery genText rest (attempt + k) s2).2.1 + k,
             (runLoop execQuery genText rest (attempt + k) s2).2.2)
        ∧ s2.retry_count = s.retry_count + k
        ∧ tokenBudget s2 = tokenBudget s + 500 * k := by
  intro k
  induction k with
  | zero =>
    intro attempt s rest h
    exact ⟨s, by simp, by simp, by simp⟩
  | succ k ih =>
    intro attempt s rest h
    have hstep := dataOp_incomplete_eq execQuery
      { s with generated_sql := genText attempt
               messages := s.messages ++ ["Generated SQL: " ++ genText attempt] }
      (by simpa using hgen attempt) (by simp; omega)
    have hrc1 : (data_operator_node execQuery incompleteV
        { s with generated_sql := genText attempt
                 messages := s.messages ++ ["Generated SQL: " ++ genText attempt] }).1.retry_count
        = s.retry_count + 1 := by rw [hstep]
    have hbud1 : tokenBudget (data_operator_node execQuery incompleteV
        { s with generated_sql := genText attempt
                 messages := s.messages ++ ["Generated SQL: " ++ genText attempt] }).1
        = tokenBudget s + 500 := by rw [hstep]; simp [tokenBudget]
    obtain ⟨s2, heq, hrc, hbud⟩ := ih (attempt + 1)
      (data_operator_node execQuery incompleteV
        { s with generated_sql := genText attempt
                 messages := s.messages ++ ["Generated SQL: " ++ genText attempt] }).1
      rest (by omega)
    refine ⟨s2, ?_, by omega, by omega⟩
    have hcons : List.replicate (k + 1) incompleteV ++ rest
        = incompleteV :: (List.replicate k incompleteV ++ rest) := by
      simp [List.replicate_succ]
    rw [hcons]
    simp only [runLoop, hstep]
    rw [hstep] at heq
    dsimp only at heq
    rw [heq]
    have hatt : attempt + 1 + k = attempt + (k + 1) := by omega
    rw [hatt]
    simp [Nat.add_assoc]

/-- C1: under a generator that always returns a statement, a run whose
verifier answers k ≤ 2 incomplete verdicts and then perfect or corrected
performs exactly k retries and ends with token budget 1000 + k * 500; no run
whatsoever performs more than 2 retries; and a third incomplete verdict makes
the loop fail with the MaxRetriesExceeded error after exactly 2 retries
instead of retrying again. -/
theorem C1_bounded_retries_and_budget (execQuery : String → Except String Rows)
    (genText : Nat → String) (hgen : ∀ i, genText i ≠ "") :
    (∀ k, k ≤ 2 → ∀ st, st = "perfect" ∨ st = "corrected" → ∀ csql nl,
      (runLoop execQuery genText
          (List.replicate k incompleteV
            ++ [{ status := some st, corrected_sql := some csql }])
          0 (initial_state nl)).2.1 = k
      ∧ tokenBudget (runLoop execQuery genText
          (List.replicate k incompleteV
            ++ [{ status := some st, corrected_sql := some csql }])
          0 (initial_state nl)).1 = 1000 + 500 * k)
    ∧ (∀ (verdicts : List Verification) (nl : String),
        (runLoop execQuery genText verdicts 0 (initial_state nl)).2.1 ≤ 2)
    ∧ (∀ nl,
        (runLoop execQuery genText (List.replicate 3 incompleteV) 0
            (initial_state nl)).2.2
          = some (OpOutcome.failed "Max retries exceeded for SQL generation")
        ∧ (runLoop execQuery genText (List.replicate 3 incompleteV) 0
            (initial_state nl)).2.1 = 2) := by
  refine ⟨?_, ?_, ?_⟩
  · intro k hk st hst csql nl
    obtain ⟨s2, heq, hrc, hbud⟩ := runLoop_incomplete_head execQuery genText hgen
      k 0 (initial_state nl) [{ status := some st, corrected_sql := some csql }]
      (by simp [initial_state]; omega)
    rw [heq]
    have hsucc := dataOp_success_facts execQuery st csql
      { s2 with
          generated_sql := genText (0 + k)
          messages := s2.messages ++ ["Generated SQL: " ++ genText (0 + k)] }
      (by simpa using hgen (0 + k)) hst
    rw [runLoop_single execQuery genText _ _ _ hsucc.1]
    have hb2 := hsucc.2.1
    simp only [tokenBudget] at hb2 hbud ⊢
    simp [initial_state] at hbud
    constructor
    · simp
    · simp at hb2 ⊢
      omega
  · intro verdicts nl
    have h1 := runLoop_retries_le execQuery genText verdicts 0 (initial_state nl)
    have h0 : (initial_state nl).retry_count = 0 := rfl
    omega
  · intro nl
    have hsplit : List.replicate 3 incompleteV
        = List.replicate 2 incompleteV ++ [incompleteV] := by rfl
    rw [hsplit]
    obtain ⟨s2, heq, hrc, hbud⟩ := runLoop_incomplete_head execQuery genText hgen
      2 0 (initial_state nl) [incompleteV] (by simp [initial_state])
    rw [heq]
    simp [initial_state] at hrc
    have hfail := dataOp_incomplete_fail_eq execQuery
      { s2 with
          generated_sql := genText (0 + 2)
          messages := s2.messages ++ ["Generated SQL: " ++ genText (0 + 2)] }
      (by simpa using hgen (0 + 2)) (by simp; omega)
    rw [runLoop_single execQuery genText _ _ _ (by rw [hfail]; simp)]
    rw [hfail]
    simp

/-- Witness for C1: two incomplete verdicts then a perfect one, with a
concrete executor and generator, perform exactly two retries and end with
budget 2000; the all-incomplete script fails with MaxRetriesExceeded. -/
theorem C1_bounded_retries_and_budget_witness :
    (runLoop w_exec w_gen [incompleteV, incompleteV, perfectV] 0
        (initial_state "list all customers")).2.1 = 2
    ∧ tokenBudget (runLoop w_exec w_gen [incompleteV, incompleteV, perfectV] 0
        (initial_state "list all customers")).1 = 2000
    ∧ (runLoop w_exec w_gen [incompleteV, incompleteV, incompleteV] 0
        (initial_state "list all customers")).2.2
      = some (OpOutcome.failed "Max retries exceeded for SQL generation") := by
  have h := C1_bounded_retries_and_budget w_exec w_gen
    (fun i => by show ("SELECT 1;" : String) ≠ ""; decide)
  have h1 := h.1 2 (by decide) "perfect" (Or.inl rfl) "SELECT 1;" "list all customers"
  have h3 := (h.2.2 "list all customers").1
  exact ⟨h1.1, h1.2, h3⟩

/-- Merging one row either leaves the key list unchanged (collision) or
appends the new table name at the end. -/
theorem keys_addCandidate (q : String) (r : QueryResult) :
    ∀ acc : List Candidate,
      (addCandidate q r acc).map (·.table_name)
        = if r.table_name ∈ acc.map (·.table_name)
          then acc.map (·.table_name)
          else acc.map (·.table_name) ++ [r.table_name] := by
  intro acc
  induction acc with
  | nil => simp [addCandidate, newCandidate]
  | cons c rest ih =>
    by_cases hc : c.table_name = r.table_name
    · by_cases hlt : c.confidence_score < toConfidence r.distance <;>
        simp [addCandidate, hc, hlt]
    · by_cases hm : r.table_name ∈ rest.map (·.table_name) <;>
        simp [addCandidate, hc, Ne.symm hc, hm, ih]

/-- Merging one row preserves per-candidate confidence correctness: every
entry of the merged list carries the maximum confidence over its colliding
rows once the new row is appended to the processed stream.  The last
hypothesis says a table name absent from the accumulator has no processed
row either (the completeness the full invariant maintains). -/
theorem addCandidate_confOk (q : String) (r : QueryResult) :
    ∀ (acc : List Candidate) (pre : List (String × QueryResult)),
      (acc.map (·.table_name)).Nodup →
      (∀ c ∈ acc, ConfOk pre c) →
      (r.table_name ∉ acc.map (·.table_name) →
        ∀ p ∈ pre, p.2.table_name ≠ r.table_name) →
      ∀ c2 ∈ addCandidate q r acc, ConfOk (pre ++ [(q, r)]) c2 := by
  intro acc
  induction acc with
  | nil =>
    intro pre hnd hok hfresh c2 hc2
    simp [addCandidate] at hc2
    subst hc2
    constructor
    · exact ⟨(q, r), by simp, by simp [newCandidate]⟩
    · intro p hp htn
      rcases List.mem_append.1 hp with hp | hp
      · exact absurd htn (by simpa [newCandidate] using hfresh (by simp) p hp)
      · simp at hp
        subst hp
        simp [newCandidate]
  | cons c rest ih =>
    intro pre hnd hok hfresh c2 hc2
    have hnd2 : (c.table_name :: rest.map (·.table_name)).Nodup := by simpa using hnd
    have hndr : (rest.map (·.table_name)).Nodup := (List.nodup_cons.1 hnd2).2
    have hcnotin : c.table_name ∉ rest.map (·.table_name) := (List.nodup_cons.1 hnd2).1
    by_cases hc : c.table_name = r.table_name
    · rw [show addCandidate q r (c :: rest)
          = (if c.confidence_score < toConfidence r.distance then
              { c with confidence_score := toConfidence r.distance
                       reason := "Found relevant content for query: " ++ q }
            else c) :: rest from by simp [addCandidate, hc]] at hc2
      rcases List.mem_cons.1 hc2 with hhead | htail
      · by_cases hlt : c.confidence_score < toConfidence r.distance
        · rw [if_pos hlt] at hhead
          subst hhead
          constructor
          · exact ⟨(q, r), by simp, by simp [hc]⟩
          · intro p hp htn
            rcases List.mem_append.1 hp with hp | hp
            · have := (hok c (by simp)).2 p hp (by simpa [← hc] using htn)
              simp only []
              exact le_of_lt (lt_of_le_of_lt this hlt)
            · simp at hp
              subst hp
              simp
        · rw [if_neg hlt] at hhead
          subst hhead
          rcases hok c2 (by simp) with ⟨hex, hall⟩
          constructor
          · rcases hex with ⟨p, hp, h1, h2⟩
            exact ⟨p, List.mem_append_left _ hp, h1, h2⟩
          · intro p hp htn
            rcases List.mem_append.1 hp with hp | hp
            · exact hall p hp htn
            · simp at hp
              subst hp
              simpa [hc] using le_of_not_lt hlt
      · rcases hok c2 (by simp [htail]) with ⟨hex, hall⟩
        constructor
        · rcases hex with ⟨p, hp, h1, h2⟩
          exact ⟨p, List.mem_append_left _ hp, h1, h2⟩
        · intro p hp htn
          rcases List.mem_append.1 hp with hp | hp
          · exact hall p hp htn
          · simp at hp
            subst hp
            simp only [] at htn
            have : c2.table_name ∈ rest.map (·.table_name) := by
              exact List.mem_map.2 ⟨c2, htail, rfl⟩
            rw [← htn] at this
            rw [← hc] at this
            exact absurd this hcnotin
    · rw [show addCandidate q r (c :: rest) = c :: addCandidate q r rest from by
          simp [addCandidate, hc]] at hc2
      rcases List.mem_cons.1 hc2 with hhead | htail
      · subst hhead
        rcases hok c2 (by simp) with ⟨hex, hall⟩
        constructor
        · rcases hex with ⟨p, hp, h1, h2⟩
          exact ⟨p, List.mem_append_left _ hp, h1, h2⟩
        · intro p hp htn
          rcases List.mem_append.1 hp with hp | hp
          · exact hall p hp htn
          · simp at hp
            subst hp
            simp only [] at htn
            exact absurd (htn.symm) hc
      · refine ih pre hndr (fun c3 h3 => hok c3 (by simp [h3])) ?_ c2 htail
        intro hni
        refine hfresh ?_
        simp only [List.map_cons, List.mem_cons]
        push_neg
        exact ⟨Ne.symm hc, by simpa using hni⟩

/-- The merge fold's invariant: starting from an accumulator whose keys are
distinct, whose entries carry the maximum confidence over the processed
stream, and which covers every processed table name, the fold over the
remaining stream preserves all three. -/
theorem mergeAll_invariant :
    ∀ (pairs pre : List (String × QueryResult)) (acc : List Candidate),
      (acc.map (·.table_name)).Nodup →
      (∀ c ∈ acc, ConfOk pre c) →
      (∀ p ∈ pre, p.2.table_name ∈ acc.map (·.table_name)) →
      ((mergeAll pairs acc).map (·.table_name)).Nodup
      ∧ (∀ c ∈ mergeAll pairs acc, ConfOk (pre ++ pairs) c)
      ∧ (∀ p ∈ pre ++ pairs, p.2.table_name ∈ (mergeAll pairs acc).map (·.table_name)) := by
  intro pairs
  induction pairs with
  | nil =>
    intro pre acc hnd hok hcomp
    refine ⟨by simpa [mergeAll] using hnd, ?_, ?_⟩
    · intro c hc
      simpa [mergeAll] using hok c (by simpa [mergeAll] using hc)
    · intro p hp
      simpa [mergeAll] using hcomp p (by simpa using hp)
  | cons pr ps ih =>
    intro pre acc hnd hok hcomp
    have hfresh : pr.2.table_name ∉ acc.map (·.table_name) →
        ∀ p ∈ pre, p.2.table_name ≠ pr.2.table_name := by
      intro hni p hp heq
      exact hni (heq ▸ hcomp p hp)
    have hnd2 : ((addCandidate pr.1 pr.2 acc).map (·.table_name)).Nodup := by
      rw [keys_addCandidate]
      by_cases hm : pr.2.table_name ∈ acc.map (·.table_name)
      · simpa [hm] using hnd
      · rw [if_neg hm, List.nodup_append]
        refine ⟨hnd, by simp, ?_⟩
        intro a ha hb
        simp at hb
        exact hm (hb ▸ ha)
    have hok2 : ∀ c ∈ addCandidate pr.1 pr.2 acc, ConfOk (pre ++ [pr]) c := by
      intro c hc
      exact addCandidate_confOk pr.1 pr.2 acc pre hnd hok hfresh c hc
    have hcomp2 : ∀ p ∈ pre ++ [pr],
        p.2.table_name ∈ (addCandidate pr.1 pr.2 acc).map (·.table_name) := by
      intro p hp
      rw [keys_addCandidate]
      rcases List.mem_append.1 hp with hp | hp
      · by_cases hm : pr.2.table_name ∈ acc.map (·.table_name)
        · rw [if_pos hm]
          exact hcomp p hp
        · rw [if_neg hm]
          exact List.mem_append_left _ (hcomp p hp)
      · simp at hp
        subst hp
        by_cases hm : p.2.table_name ∈ acc.map (·.table_name)
        · rw [if_pos hm]
          exact hm
        · rw [if_neg hm]
          exact List.mem_append_right _ (by simp)
    have hstep : mergeAll (pr :: ps) acc = mergeAll ps (addCandidate pr.1 pr.2 acc) := by
      simp [mergeAll]
    rw [hstep]
    have := ih (pre ++ [pr]) (addCandidate pr.1 pr.2 acc) hnd2 hok2 hcomp2
    refine ⟨this.1, ?_, ?_⟩
    · intro c hc
      have h2 := this.2.1 c hc
      simpa [List.append_assoc] using h2
    · intro p hp
      refine this.2.2 p ?_
      simpa [List.append_assoc] using hp

/-- The per-query fold of search_relevant_tables_by_content equals the merge
fold over the flattened (query, row) stream of the successful queries. -/
theorem foldl_queries_eq_mergeAll (queryOutcome : String → QueryOutcome) :
    ∀ (qs : List String) (acc : List Candidate),
      qs.foldl (fun a q => mergeQuery a q (queryOutcome q)) acc
        = mergeAll (pairsOf queryOutcome qs) acc := by
  intro qs
  induction qs with
  | nil => intro acc; rfl
  | cons q qs ih =>
    intro acc
    have hps : pairsOf queryOutcome (q :: qs)
        = (match queryOutcome q with
           | .ok rs => rs.map fun r => (q, r)
           | .error _ => []) ++ pairsOf queryOutcome qs := by
      simp [pairsOf]
    rw [List.foldl_cons, ih, hps]
    cases h : queryOutcome q with
    | error e => simp [mergeQuery, h]
    | ok rs =>
      simp only [h, mergeQuery, mergeAll, List.foldl_append, List.foldl_map]

/-- A candidate that is correct in the Prop sense passes the boolean maximum
checker. -/
theorem confIsMaxIn_of_confOk (pool : List (String × QueryResult)) (c : Candidate)
    (h : ConfOk pool c) : confIsMaxIn pool c = true := by
  rcases h with ⟨⟨p, hp, htn, hconf⟩, hall⟩
  simp only [confIsMaxIn, Bool.and_eq_true, List.any_eq_true, List.all_eq_true,
    List.mem_map, List.mem_filter, beq_iff_eq]
  constructor
  · exact ⟨toConfidence p.2.distance, ⟨p, ⟨hp, htn⟩, rfl⟩, hconf⟩
  · rintro x ⟨p2, ⟨hp2, htn2⟩, rfl⟩
    exact decide_eq_true (hall p2 hp2 htn2)

/-- C4: for every batch of query outcomes, the ranker output has pairwise
distinct table names; every entry carries exactly the maximum confidence
max(0, 1 - distance) over the query rows colliding on its table name; no
entry with confidence at most 0.2 survives; the list is sorted in descending
confidence order; and its length is at most top_k. -/
theorem C4_ranker_output_properties (queryOutcome : String → QueryOutcome)
    (entities : List String) (nl_text : String) (top_k : Nat) :
    ((search_relevant_tables_by_content true queryOutcome entities nl_text top_k).map
        (·.table_name)).Nodup
    ∧ ((search_relevant_tables_by_content true queryOutcome entities nl_text top_k).all
        fun c => confIsMaxIn (pairsOf queryOutcome (search_queries entities nl_text)) c)
      = true
    ∧ ((search_relevant_tables_by_content true queryOutcome entities nl_text top_k).all
        fun c => decide (mkRat 2 10 < c.confidence_score)) = true
    ∧ (search_relevant_tables_by_content true queryOutcome entities nl_text top_k).Pairwise
        (fun a b => b.confidence_score ≤ a.confidence_score)
    ∧ (search_relevant_tables_by_content true queryOutcome entities nl_text top_k).length
      ≤ top_k := by
  have hunfold : search_relevant_tables_by_content true queryOutcome entities nl_text top_k
      = (((mergeAll (pairsOf queryOutcome (search_queries entities nl_text)) []).mergeSort
            candidateLE).filter
          fun t => decide (mkRat 2 10 < t.confidence_score)).take top_k := by
    simp only [search_relevant_tables_by_content, if_true,
      foldl_queries_eq_mergeAll queryOutcome (search_queries entities nl_text) []]
  have hinv := mergeAll_invariant (pairsOf queryOutcome (search_queries entities nl_text))
    [] [] (by simp) (by simp) (by simp)
  have hperm := List.mergeSort_perm
    (mergeAll (pairsOf queryOutcome (search_queries entities nl_text)) []) candidateLE
  have hsub : ((((mergeAll (pairsOf queryOutcome (search_queries entities nl_text)) []).mergeSort
        candidateLE).filter fun t => decide (mkRat 2 10 < t.confidence_score)).take top_k).Sublist
      ((mergeAll (pairsOf queryOutcome (search_queries entities nl_text)) []).mergeSort
        candidateLE) :=
    (List.take_sublist _ _).trans (List.filter_sublist _)
  refine ⟨?_, ?_, ?_, ?_, ?_⟩
  · rw [hunfold]
    refine List.Nodup.sublist (hsub.map (·.table_name)) ?_
    exact ((hperm.map (·.table_name)).nodup_iff).2 hinv.1
  · rw [hunfold, List.all_eq_true]
    intro c hc
    have hmem : c ∈ mergeAll (pairsOf queryOutcome (search_queries entities nl_text)) [] :=
      hperm.subset (hsub.subset hc)
    exact confIsMaxIn_of_confOk _ c (by simpa using hinv.2.1 c hmem)
  · rw [hunfold, List.all_eq_true]
    intro c hc
    have h1 : c ∈ List.filter (fun t => decide (mkRat 2 10 < t.confidence_score))
        ((mergeAll (pairsOf queryOutcome (search_queries entities nl_text))
          []).mergeSort candidateLE) :=
      List.take_subset _ _ hc
    have h2 := List.of_mem_filter h1
    exact h2
  · rw [hunfold]
    have hsorted := @List.sorted_mergeSort Candidate candidateLE
      (fun a b c2 hab hbc => by
        simp only [candidateLE, decide_eq_true_eq] at hab hbc ⊢
        exact le_trans hbc hab)
      (fun a b => by
        simp only [candidateLE, Bool.or_eq_true, decide_eq_true_eq]
        exact le_total b.confidence_score a.confidence_score)
      (mergeAll (pairsOf queryOutcome (search_queries entities nl_text)) [])
    have hsorted2 : ((mergeAll (pairsOf queryOutcome (search_queries entities nl_text))
        []).mergeSort candidateLE).Pairwise
        (fun a b => b.confidence_score ≤ a.confidence_score) := by
      refine hsorted.imp ?_
      intro a b hab
      simpa [candidateLE, decide_eq_true_eq] using hab
    exact List.Pairwise.sublist hsub hsorted2
  · rw [hunfold]
    exact List.length_take_le _ _
